import Mathlib

/-!
# Verification of the OpenFreeEnergy/ExampleNotebooks repository

This file gives a shallow embedding of the executable content of the
repository (the two easy-campaign shell scripts, the CI workflow, the
documentation inventory, and the alchemical-network construction shown in
`cookbook/create_alchemical_network.ipynb`) and proves the claims about it.

The two campaign scripts (`easy_campaign/OpenFE_run_easy_rhfe.sh` and
`easyCampaign/OpenFE_run_easy_rbfe.sh`) are modelled as lists of shell
statements interpreted by a small-step interpreter that is faithful to
`shopt -s nullglob` and `set -euxo pipefail` semantics: a failing command
halts the script when `errexit` is on, `cd … || exit` halts on failure
regardless, and an empty glob expands to nothing under `nullglob` and to
the literal pattern otherwise.  File contents are modelled as the list of
newline-terminated lines the script's `echo -e` redirections produce.
-/

namespace ExampleNotebooks

/-- Split a character list at a separator character; the pieces between
separators, in order (an empty input gives one empty piece). -/
def splitOnChar (sep : Char) : List Char → List (List Char)
  | [] => [[]]
  | c :: cs =>
      let r := splitOnChar sep cs
      if c = sep then [] :: r
      else
        match r with
        | [] => [[c]]
        | w :: ws => (c :: w) :: ws

/-- Strip a suffix from a string if present; shell `${var%.json}`.
Implemented on the character list so that it evaluates by `decide`. -/
def stripSuffix (s suf : String) : String :=
  if List.isSuffixOf suf.data s.data then
    String.mk (s.data.take (s.data.length - suf.data.length))
  else s

/-- The final path component; shell `basename`. -/
def basename (p : String) : String :=
  String.mk ((splitOnChar '/' p.data).getLastD p.data)

/-- A line of a shell script is a command line when it is nonempty and is
not a comment (does not start with `#`).  The shebang of a job script is a
`#` line, hence not a command. -/
def isCommandLine (l : String) : Bool :=
  match l.data with
  | [] => false
  | c :: _ => c != '#'

/-- The command lines of a script given as a list of lines. -/
def commandLinesOf (lines : List String) : List String :=
  lines.filter isCommandLine

/-- Observable effects of running a shell command. -/
inductive Event where
  | madeDir (dirs : List String)
  | changedDir (dir : String)
  | ranOpenfe (args : List String)
  | printed (s : String)
  | createdFile (name : String) (lines : List String)
  | appendedFile (name : String) (lines : List String)
  | ranSbatch (script : String)
deriving DecidableEq, Repr

/-- The shell commands occurring in the two campaign scripts.  Comments are
kept (with their text) so that the commented-out analysis step is visible
in the model; they execute as no-ops, as in bash. -/
inductive ShellCmd where
  | comment (text : String)
  | shoptNullglob
  | setEuxoPipefail
  | mkdirP (dirs : List String)
  | cdOrExit (dir : String)
  | cd (dir : String)
  | openfe (args : List String)
  | echo (s : String)
  | redirectCreate (name : String) (lines : List String)
  | redirectAppend (name : String) (lines : List String)
  | sbatch (script : String)
deriving DecidableEq, Repr

/-- Interpreter state: the shell option flags, the trace of effects, the
status of the last command, and whether the script has terminated early. -/
structure ShellState where
  nullglob : Bool := false
  errexit : Bool := false
  events : List Event := []
  status : Nat := 0
  halted : Bool := false
deriving DecidableEq, Repr

/-- The effects a command produces when it succeeds. -/
def ShellCmd.effects : ShellCmd → List Event
  | .comment _ => []
  | .shoptNullglob => []
  | .setEuxoPipefail => []
  | .mkdirP ds => [.madeDir ds]
  | .cdOrExit d => [.changedDir d]
  | .cd d => [.changedDir d]
  | .openfe args => [.ranOpenfe args]
  | .echo s => [.printed s]
  | .redirectCreate n ls => [.createdFile n ls]
  | .redirectAppend n ls => [.appendedFile n ls]
  | .sbatch s => [.ranSbatch s]

/-- Flag updates performed by `shopt -s nullglob` and `set -euxo pipefail`. -/
def ShellCmd.setFlags (c : ShellCmd) (st : ShellState) : ShellState :=
  match c with
  | .shoptNullglob => { st with nullglob := true }
  | .setEuxoPipefail => { st with errexit := true }
  | _ => st

/-- Exit code of a command under an oracle giving the exit codes of the
external commands; comments and shell builtins always succeed. -/
def exitCodeOf (oracle : ShellCmd → Nat) : ShellCmd → Nat
  | .comment _ => 0
  | .shoptNullglob => 0
  | .setEuxoPipefail => 0
  | .echo _ => 0
  | c => oracle c

/-- One interpreter step.  A halted script ignores further commands.  A
successful command applies its flag updates and appends its effects.  A
failing `cd … || exit` terminates the script; any other failing command
terminates it exactly when `errexit` (`set -e`) is on. -/
def step (oracle : ShellCmd → Nat) (st : ShellState) (c : ShellCmd) : ShellState :=
  if st.halted then st
  else
    let code := exitCodeOf oracle c
    if code = 0 then
      let st1 := c.setFlags st
      { st1 with events := st1.events ++ c.effects, status := 0 }
    else
      match c with
      | .cdOrExit _ => { st with status := code, halted := true }
      | _ =>
        if st.errexit then { st with status := code, halted := true }
        else { st with status := code }

/-- Bash glob expansion: an empty match list yields the literal pattern
unless `nullglob` is set, in which case it yields nothing. -/
def expandGlob (nullglob : Bool) (pattern : String) (hits : List String) :
    List String :=
  if hits.isEmpty && !nullglob then [pattern] else hits

/-- A statement of a campaign script: a simple command, or the single
`for transformation in <glob>` loop with its body. -/
inductive Stmt where
  | simple (c : ShellCmd)
  | forLoop (pattern : String) (body : String → List ShellCmd)

/-- Run one statement. `hits` is the list of files the loop's glob
pattern matches in the simulated filesystem. -/
def runStmt (oracle : ShellCmd → Nat) (hits : List String)
    (st : ShellState) : Stmt → ShellState
  | .simple c => step oracle st c
  | .forLoop pat body =>
      ((expandGlob st.nullglob pat hits).flatMap body).foldl (step oracle) st

/-- Run a script from the initial state. -/
def runScript (oracle : ShellCmd → Nat) (hits : List String)
    (script : List Stmt) : ShellState :=
  script.foldl (runStmt oracle hits) {}

/-- `filename=$(basename "${transformation%.json}")`. -/
def jobFilename (transformation : String) : String :=
  basename (stripSuffix transformation ".json")

/-- The quickrun command the loop writes into the job script:
`openfe quickrun ${transformation} -d ./ -o ../c_results/result_${filename}.json`. -/
def quickrunCmd (transformation : String) : String :=
  "openfe quickrun " ++ transformation ++ " -d ./ -o ../c_results/result_"
    ++ jobFilename transformation ++ ".json"

/-- `job_${filename}.sh`. -/
def jobScriptName (transformation : String) : String :=
  "job_" ++ jobFilename transformation ++ ".sh"

/-- The body of the `for transformation in …` loop, common to both
campaign scripts.  `echo -e "#!/usr/bin/env bash\n" > job` writes the two
lines `#!/usr/bin/env bash` and the empty line; `echo -e "${cmd}" >> job`
with `cmd` ending in `\n` appends the command line and an empty line. -/
def loopBody (transformation : String) : List ShellCmd :=
  [ .echo (jobFilename transformation),
    .echo (quickrunCmd transformation ++ "\n"),
    .redirectCreate (jobScriptName transformation) ["#!/usr/bin/env bash", ""],
    .redirectAppend (jobScriptName transformation) [quickrunCmd transformation, ""],
    .sbatch (jobScriptName transformation) ]

/-- The glob pattern of the submission loop in both scripts. -/
def transformationsGlob : String :=
  "../a_alchemicalNetwork/transformations/*/a_alchemicalNetwork*.json"

/-- The common shape of the two campaign scripts, which differ only in the
calculation directory and the planning command's arguments. -/
def easyCampaignScript (calcDir : String) (planArgs : List String) : List Stmt :=
  [ .simple .shoptNullglob,
    .simple .setEuxoPipefail,
    .simple (.mkdirP [calcDir]),
    .simple (.cdOrExit calcDir),
    .simple (.openfe planArgs),
    .simple (.mkdirP ["b_simulation", "c_results"]),
    .simple (.cdOrExit "b_simulation"),
    .forLoop transformationsGlob loopBody,
    .simple (.cd ".."),
    .simple (.comment "Analysis: FUTURE"),
    .simple (.comment "openfe gather_result_jsons -result_json_dir c_results -out_csv dG.csv") ]

/-- Arguments of the planning command of `OpenFE_run_easy_rhfe.sh`. -/
def planRhfeArgs : List String :=
  ["plan-rhfe-network", "-M", "../molecules/rhfe/benzenes_RHFE.sdf",
   "-o", "a_alchemicalNetwork"]

/-- Arguments of the planning command of `OpenFE_run_easy_rbfe.sh`. -/
def planRbfeArgs : List String :=
  ["plan-rbfe-network", "-m", "../molecules/rbfe/p38_old_ligands.sdf",
   "-p", "../molecules/rbfe/p38_old_protein.pdb", "-o", "a_alchemicalNetwork"]

/-- `easy_campaign/OpenFE_run_easy_rhfe.sh`. -/
def rhfeScript : List Stmt := easyCampaignScript "rhfe_calculation" planRhfeArgs

/-- `easyCampaign/OpenFE_run_easy_rbfe.sh`. -/
def rbfeScript : List Stmt := easyCampaignScript "rbfe_calculation" planRbfeArgs

/-- The script submitted by an `sbatch` event, if any. -/
def Event.sbatchTarget : Event → Option String
  | .ranSbatch s => some s
  | _ => none

/-- Whether an event writes to a file (creation or append). -/
def Event.isFileWrite : Event → Bool
  | .createdFile _ _ => true
  | .appendedFile _ _ => true
  | _ => false

/-- The arguments of an `openfe` CLI invocation event, if any. -/
def Event.openfeArgs : Event → Option (List String)
  | .ranOpenfe args => some args
  | _ => none

/-- The sbatch submissions in a trace, in order. -/
def submissionsOf (st : ShellState) : List String :=
  st.events.filterMap Event.sbatchTarget

/-- The file-writing events (creations and appends) of a trace, in order. -/
def fileWritesOf (st : ShellState) : List Event :=
  st.events.filter Event.isFileWrite

/-- The `openfe` CLI invocations of a trace, in order. -/
def openfeCallsOf (st : ShellState) : List (List String) :=
  st.events.filterMap Event.openfeArgs

/-- The comment texts of a script. -/
def commentsOf (script : List Stmt) : List String :=
  script.filterMap fun s =>
    match s with
    | .simple (.comment t) => some t
    | _ => none

/-- The all-successful oracle: every external command exits with 0. -/
def allOk : ShellCmd → Nat := fun _ => 0

/-- An oracle that fails exactly on one given command, with a given code. -/
def failingOn (bad : ShellCmd) (code : Nat) : ShellCmd → Nat :=
  fun c => if c = bad then code else 0

/-- The effects of one successful iteration of the submission loop. -/
def loopEvents (transformation : String) : List Event :=
  [ .printed (jobFilename transformation),
    .printed (quickrunCmd transformation ++ "\n"),
    .createdFile (jobScriptName transformation) ["#!/usr/bin/env bash", ""],
    .appendedFile (jobScriptName transformation) [quickrunCmd transformation, ""],
    .ranSbatch (jobScriptName transformation) ]

/-- The full content of the job script written for one transformation, as
the list of its lines: the create redirection followed by the append. -/
def jobScriptLines (transformation : String) : List String :=
  ["#!/usr/bin/env bash", "", quickrunCmd transformation, ""]

/-- Effects of a successful prologue of a campaign script, before the loop. -/
def prologueEvents (calcDir : String) (planArgs : List String) : List Event :=
  [ .madeDir [calcDir], .changedDir calcDir, .ranOpenfe planArgs,
    .madeDir ["b_simulation", "c_results"], .changedDir "b_simulation" ]

/-- A concrete transformation file list used to instantiate the general
theorems: one planner output file under the transformations directory. -/
def demoHits : List String :=
  ["../a_alchemicalNetwork/transformations/tm0/a_alchemicalNetwork_demo.json"]

/-- Concrete transformation files for the failure scenarios: one file
before and one after the file whose submission fails. -/
def demoPre : List String :=
  ["../a_alchemicalNetwork/transformations/tm1/a_alchemicalNetwork_e1.json"]

def demoFail : String :=
  "../a_alchemicalNetwork/transformations/tm2/a_alchemicalNetwork_e2.json"

def demoPost : List String :=
  ["../a_alchemicalNetwork/transformations/tm3/a_alchemicalNetwork_e3.json"]

/-! ## The CI workflow (`.github/workflows/CI.yml`) -/

/-- A step of the `test` job of the `full_tests` GitHub Actions workflow:
its name, the action it uses (if any), its `with:` entries, and the lines
of its `run:` block. -/
structure WorkflowStep where
  stepName : Option String
  usesAction : Option String
  withArgs : List (String × String)
  runLines : List String
deriving DecidableEq, Repr

/-- The steps of the `test` job of `.github/workflows/CI.yml`, in order. -/
def ciTestJobSteps : List WorkflowStep :=
  [ { stepName := none, usesAction := some "actions/checkout@v2.4.0",
      withArgs := [], runLines := [] },
    { stepName := some "Get current date", usesAction := none, withArgs := [],
      runLines := ["echo \"date=$(date +%Y-%m-%d)\" >> \"$\x7bGITHUB_OUTPUT\x7d\""] },
    { stepName := none, usesAction := some "mamba-org/setup-micromamba@v1",
      withArgs :=
        [ ("environment-file", ".binder/environment.yml"),
          ("cache-environment", "true"),
          ("cache-downloads", "true"),
          ("cache-environment-key", "environment-$\x7b\x7b steps.date.outputs.date \x7d\x7d"),
          ("cache-downloads-key", "downloads-$\x7b\x7b steps.date.outputs.date \x7d\x7d"),
          ("create-args", "python=$\x7b\x7b matrix.python-version \x7d\x7d"),
          ("init-shell", "bash") ],
      runLines := [] },
    { stepName := some "Additional info about the build", usesAction := none,
      withArgs := [], runLines := ["uname -a", "df -h", "ulimit -a"] },
    { stepName := some "Environment Information", usesAction := none,
      withArgs := [], runLines := ["micromamba info", "micromamba list"] },
    { stepName := some "Run example notebooks", usesAction := none,
      withArgs := [],
      runLines := ["python -m pytest -v setup/ showcase/ cookbook/ openmm_rbfe/ networks/ --nbval-lax --nbval-cell-timeout=3000 -n auto --dist loadscope"] } ]

/-- The single test command of the `Run example notebooks` step. -/
def ciPytestLine : String :=
  "python -m pytest -v setup/ showcase/ cookbook/ openmm_rbfe/ networks/ --nbval-lax --nbval-cell-timeout=3000 -n auto --dist loadscope"

/-- Whitespace tokens of a shell line. -/
def tokensOf (line : String) : List String :=
  (splitOnChar ' ' line.data).map String.mk

/-- A run line is a test invocation when it invokes pytest. -/
def isTestInvocation (line : String) : Bool :=
  tokensOf line |>.contains "pytest"

/-! ## Documentation inventory -/

/-- A documentation file together with the `openfe` subcommands it shows in
usage examples (fenced command examples in the document body). -/
structure DocFile where
  docPath : String
  cliUsageExamples : List String
deriving DecidableEq, Repr

/-- The documents of the repository that show `openfe` CLI usage examples,
with the subcommands each one demonstrates. -/
def repositoryDocs : List DocFile :=
  [ { docPath := "rbfe_tutorial/cli_tutorial.md",
      cliUsageExamples :=
        ["fetch", "plan-rbfe-network", "view-ligand-network", "quickrun", "gather"] },
    { docPath := "easyCampaign/cli-tutorial.md",
      cliUsageExamples := ["plan-rhfe-network", "quickrun", "gather"] },
    { docPath := "cli_tutorials/cli_charge_molecules.md",
      cliUsageExamples := ["charge-molecules"] } ]

/-- The seven CLI commands listed by the spec's external-interface section. -/
def specListedCliCommands : List String :=
  ["plan-rbfe-network", "plan-rhfe-network", "charge-molecules", "quickrun",
   "gather", "view-ligand-network", "fetch"]

/-! ## Repository file inventory -/

inductive FileKind where
  | markdown
  | notebook
  | shellScript
  | yamlConfig
  | other
deriving DecidableEq, Repr

/-- Whether `s` ends with the suffix `suf`, on the character lists. -/
def endsWithStr (s suf : String) : Bool :=
  List.isSuffixOf suf.data s.data

/-- Classify a repository file by its extension. -/
def kindOfPath (p : String) : FileKind :=
  if endsWithStr p ".md" then .markdown
  else if endsWithStr p ".ipynb" then .notebook
  else if endsWithStr p ".sh" then .shellScript
  else if endsWithStr p ".yml" || endsWithStr p ".yaml" then .yamlConfig
  else .other

/-- The repository files whose paths are known. -/
def namedRepoFiles : List String :=
  [ ".github/workflows/CI.yml",
    "README.md",
    "cli_tutorials/cli_charge_molecules.md",
    "cookbook/bespoke_parameters_showcase.ipynb",
    "cookbook/choose_protocol.ipynb",
    "cookbook/create_alchemical_network.ipynb",
    "cookbook/hand_write_ligand_network.ipynb",
    "cookbook/rfe_alchemical_planners.ipynb",
    "cookbook/user_charges.ipynb",
    "easyCampaign/OpenFE_run_easy_rbfe.sh",
    "easyCampaign/cli-tutorial.md",
    "easy_campaign/OpenFE_run_easy_rhfe.sh",
    "networks/Preparing AlchemicalNetworks.ipynb",
    "rbfe_tutorial/cli_tutorial.md" ]

/-- The repository source files whose original paths are unknown, with the
kind determined from their content: parts 000, 001, 002, 006 and 007 are
Jupyter notebook JSON documents, parts 003, 004 and 005 are Markdown. -/
def unnamedRepoFiles : List (String × FileKind) :=
  [ ("unnamed/part_000", .notebook), ("unnamed/part_001", .notebook),
    ("unnamed/part_002", .notebook), ("unnamed/part_003", .markdown),
    ("unnamed/part_004", .markdown), ("unnamed/part_005", .markdown),
    ("unnamed/part_006", .notebook), ("unnamed/part_007", .notebook) ]

/-- The three file kinds the spec claims exhaust the repository. -/
def claimedKinds : List FileKind := [.markdown, .notebook, .shellScript]

/-! ## Heavy-lifting inventory -/

/-- The computational heavy-lifting steps the spec enumerates. -/
inductive HeavyStep where
  | atomMapping
  | networkPlanning
  | molecularDynamics
  | chargeGeneration
  | freeEnergyEstimation
deriving DecidableEq, Repr

/-- One occurrence of a heavy-lifting step in the repository: where it
occurs, the callable or CLI command invoked, and the external library or
tool that provides it. -/
structure HeavyStepUse where
  location : String
  callee : String
  provider : String
  step : HeavyStep
deriving DecidableEq, Repr

/-- The external libraries and tools the spec names, plus the external
`openfe` command-line interface. -/
def externalProviders : List String :=
  ["openfe", "openff-toolkit", "rdkit", "openmm", "ambertools", "lomap",
   "kartograf", "openfe-cli"]

/-- All Python functions and classes defined (by a `def` or `class`
statement) in code cells or scripts of this source tree.  There are none:
every code cell only imports and invokes external libraries. -/
def pythonDefinedCallables : List String := []

/-- The heavy-lifting invocations occurring in the notebooks, tutorials
and scripts, with the external provider of each. -/
def heavyStepUses : List HeavyStepUse :=
  [ ⟨"cookbook/create_alchemical_network.ipynb", "openfe.setup.LomapAtomMapper",
      "openfe", .atomMapping⟩,
    ⟨"unnamed/part_001", "openfe.setup.LomapAtomMapper", "openfe", .atomMapping⟩,
    ⟨"cookbook/create_alchemical_network.ipynb",
      "openfe.lomap_scorers.default_lomap_score", "openfe", .atomMapping⟩,
    ⟨"cookbook/create_alchemical_network.ipynb",
      "openfe.ligand_network_planning.generate_minimal_spanning_network",
      "openfe", .networkPlanning⟩,
    ⟨"unnamed/part_001",
      "openfe.ligand_network_planning.generate_minimal_spanning_network",
      "openfe", .networkPlanning⟩,
    ⟨"unnamed/part_001", "openfe.ligand_network_planning.generate_radial_network",
      "openfe", .networkPlanning⟩,
    ⟨"cookbook/create_alchemical_network.ipynb",
      "openfe.protocols.openmm_rfe.RelativeHybridTopologyProtocol",
      "openfe", .molecularDynamics⟩,
    ⟨"unnamed/part_002", "openfe.protocols.openmm_rfe.RelativeHybridTopologyProtocol",
      "openfe", .molecularDynamics⟩,
    ⟨"unnamed/part_007",
      "openfe.protocols.openmm_utils.charge_generation.bulk_assign_partial_charges",
      "openfe", .chargeGeneration⟩,
    ⟨"cookbook/user_charges.ipynb", "openff.toolkit.Molecule.assign_partial_charges",
      "openff-toolkit", .chargeGeneration⟩,
    ⟨"cli_tutorials/cli_charge_molecules.md", "openfe charge-molecules",
      "openfe-cli", .chargeGeneration⟩,
    ⟨"rbfe_tutorial/cli_tutorial.md", "openfe plan-rbfe-network", "openfe-cli",
      .networkPlanning⟩,
    ⟨"rbfe_tutorial/cli_tutorial.md", "openfe quickrun", "openfe-cli",
      .molecularDynamics⟩,
    ⟨"rbfe_tutorial/cli_tutorial.md", "openfe gather", "openfe-cli",
      .freeEnergyEstimation⟩ ]

/-! ## The alchemical network construction
(`cookbook/create_alchemical_network.ipynb`) -/

/-- A small-molecule (ligand) component; `molId` stands for the molecular
content, `name` for the `ofe-name` of the ligand. -/
structure SmallMoleculeComponent where
  molId : Nat
  name : String
deriving DecidableEq, Repr

structure SolventComponent where
  solvId : Nat
deriving DecidableEq, Repr

structure ProteinComponent where
  protId : Nat
deriving DecidableEq, Repr

/-- A chemical component of a system. -/
inductive Component where
  | small (m : SmallMoleculeComponent)
  | solvent (s : SolventComponent)
  | protein (p : ProteinComponent)
deriving DecidableEq, Repr

/-- An atom mapping between two ligands; `mapId` stands for the mapping
content. -/
structure LigandAtomMapping where
  componentA : SmallMoleculeComponent
  componentB : SmallMoleculeComponent
  mapId : Nat
deriving DecidableEq, Repr

/-- A ligand network: its edges are atom mappings between ligands. -/
structure LigandNetwork where
  edges : List LigandAtomMapping
deriving DecidableEq, Repr

/-- An abstract protocol (the notebook uses
`RelativeHybridTopologyProtocol(...default_settings())`). -/
structure Protocol where
  protocolId : Nat
deriving DecidableEq, Repr

/-- A chemical system: a dictionary of named components plus a name.  The
component dictionaries built in the notebook always list the ligand first
followed by the leg's common components, so the association list order is
fixed and list equality coincides with dictionary equality. -/
structure ChemicalSystem where
  components : List (String × Component)
  name : String
deriving DecidableEq, Repr

/-- A transformation between two chemical systems. -/
structure Transformation where
  stateA : ChemicalSystem
  stateB : ChemicalSystem
  mapping : LigandAtomMapping
  protocol : Protocol
  name : String
deriving DecidableEq, Repr

/-- An alchemical network compares as a graph: its transformations and its
chemical systems as sets, matching the set-based equality of the library's
`AlchemicalNetwork`. -/
structure AlchemicalNetwork where
  edges : Finset Transformation
  nodes : Finset ChemicalSystem
deriving DecidableEq

/-- Build an alchemical network from a list of transformations; the nodes
are the end states of the transformations. -/
def AlchemicalNetwork.ofTransformations (ts : List Transformation) :
    AlchemicalNetwork :=
  { edges := ts.toFinset,
    nodes := (ts.flatMap fun t => [t.stateA, t.stateB]).toFinset }

/-- The `legs` dictionary of the notebook's manual loop: the solvent leg
has the solvent as its common component, the complex leg has the solvent
and the protein. -/
def rbfeLegs (solvent : SolventComponent) (protein : ProteinComponent) :
    List (String × List (String × Component)) :=
  [ ("solvent", [("solvent", .solvent solvent)]),
    ("complex", [("solvent", .solvent solvent), ("protein", .protein protein)]) ]

/-- `openfe.ChemicalSystem({'ligand': lig, **common_components},
name=f"{lig.name}_{leg}")`. -/
def legSystem (lig : SmallMoleculeComponent) (leg : String)
    (common : List (String × Component)) : ChemicalSystem :=
  { components := ("ligand", .small lig) :: common,
    name := lig.name ++ "_" ++ leg }

/-- The `openfe.Transformation(stateA=system_a, stateB=system_b,
mapping=mapping, protocol=protocol,
name=f"easy_rbfe_{system_a.name}_{system_b.name}")` of one leg. -/
def legTransformation (mapping : LigandAtomMapping) (protocol : Protocol)
    (leg : String) (common : List (String × Component)) : Transformation :=
  let system_a := legSystem mapping.componentA leg common
  let system_b := legSystem mapping.componentB leg common
  { stateA := system_a, stateB := system_b, mapping := mapping,
    protocol := protocol,
    name := "easy_rbfe_" ++ system_a.name ++ "_" ++ system_b.name }

/-- The transformations the notebook's manual loop collects: for every
edge of the ligand network, and for each of the two legs in dictionary
order (solvent, then complex), one transformation. -/
def manualTransformations (ln : LigandNetwork) (protocol : Protocol)
    (solvent : SolventComponent) (protein : ProteinComponent) :
    List Transformation :=
  ln.edges.flatMap fun mapping =>
    (rbfeLegs solvent protein).map fun lc =>
      legTransformation mapping protocol lc.1 lc.2

/-- `openfe.AlchemicalNetwork(transformations)` of the manual loop. -/
def manualAlchemicalNetwork (ln : LigandNetwork) (protocol : Protocol)
    (solvent : SolventComponent) (protein : ProteinComponent) :
    AlchemicalNetwork :=
  AlchemicalNetwork.ofTransformations
    (manualTransformations ln protocol solvent protein)

/-- Modelled from the spec: `LigandNetwork.to_rbfe_alchemical_network` is
implemented by the external openfe library and its code is not part of
this repository.  Per the notebook's description it constructs the RBFE
alchemical network directly: for every edge of the ligand network it
produces a solvent-leg transformation (common component: the solvent) and
a complex-leg transformation (common components: the solvent and the
protein), using the same `easy_rbfe_…` naming convention as the manual
loop.  It is written here leg-by-leg rather than edge-by-edge, so the
comparison with the manual loop is a genuine permutation argument. -/
def to_rbfe_alchemical_network (ln : LigandNetwork)
    (solvent : SolventComponent) (protein : ProteinComponent)
    (protocol : Protocol) : AlchemicalNetwork :=
  AlchemicalNetwork.ofTransformations
    ((ln.edges.map fun m =>
        legTransformation m protocol "solvent" [("solvent", .solvent solvent)])
     ++ (ln.edges.map fun m =>
        legTransformation m protocol "complex"
          [("solvent", .solvent solvent), ("protein", .protein protein)]))

/-! ## Interpreter lemmas -/

theorem step_halted (oracle : ShellCmd → Nat) (st : ShellState) (c : ShellCmd)
    (h : st.halted = true) : step oracle st c = st := by
  simp [step, h]

theorem foldl_step_halted (oracle : ShellCmd → Nat) (cmds : List ShellCmd)
    (st : ShellState) (h : st.halted = true) :
    cmds.foldl (step oracle) st = st := by
  induction cmds with
  | nil => rfl
  | cons c cs ih => rw [List.foldl_cons, step_halted oracle st c h, ih]

/-- Every command of the submission loop's body succeeds under the
all-successful oracle. -/
theorem loopBody_allOk (t : String) : ∀ c ∈ loopBody t, exitCodeOf allOk c = 0 := by
  intro c hc
  cases c <;> rfl

/-- Running the submission loop when every iteration succeeds appends one
`loopEvents` block per matched file and leaves the script running. -/
theorem loop_foldl_ok (oracle : ShellCmd → Nat) (ts : List String)
    (st : ShellState) (hh : st.halted = false) (hs : st.status = 0)
    (hok : ∀ t ∈ ts, ∀ c ∈ loopBody t, exitCodeOf oracle c = 0) :
    (ts.flatMap loopBody).foldl (step oracle) st
      = { st with events := st.events ++ ts.flatMap loopEvents } := by
  induction ts generalizing st with
  | nil =>
      simp only [List.flatMap_nil, List.foldl_nil, List.append_nil]
  | cons t ts ih =>
      have h1 := hok t (List.mem_cons_self t ts) (.echo (jobFilename t)) (by simp [loopBody])
      have h2 := hok t (List.mem_cons_self t ts) (.echo (quickrunCmd t ++ "\n"))
        (by simp [loopBody])
      have h3 := hok t (List.mem_cons_self t ts)
        (.redirectCreate (jobScriptName t) ["#!/usr/bin/env bash", ""]) (by simp [loopBody])
      have h4 := hok t (List.mem_cons_self t ts)
        (.redirectAppend (jobScriptName t) [quickrunCmd t, ""]) (by simp [loopBody])
      have h5 := hok t (List.mem_cons_self t ts) (.sbatch (jobScriptName t))
        (by simp [loopBody])
      rw [List.flatMap_cons, List.foldl_append]
      have hbody : (loopBody t).foldl (step oracle) st
          = { st with events := st.events ++ loopEvents t, status := 0 } := by
        simp only [loopBody, List.foldl_cons, List.foldl_nil]
        simp [step, hh, h1, h2, h3, h4, h5, ShellCmd.setFlags, ShellCmd.effects,
          loopEvents]
      rw [hbody]
      rw [ih { st with events := st.events ++ loopEvents t, status := 0 } hh rfl
        (fun u hu => hok u (List.mem_cons_of_mem t hu))]
      simp [List.flatMap_cons, List.append_assoc, hs]

/-- Characterization of a fully successful campaign run: the trace is the
prologue (mkdir, cd, planning command, mkdir, cd), one block of loop events
per matched transformation file, and the final `cd ..`. -/
theorem runScript_easyCampaign_allOk (calcDir : String) (planArgs : List String)
    (hits : List String) :
    runScript allOk hits (easyCampaignScript calcDir planArgs)
      = { nullglob := true, errexit := true,
          events := prologueEvents calcDir planArgs ++ hits.flatMap loopEvents
                    ++ [.changedDir ".."],
          status := 0, halted := false } := by
  have h1 : runScript allOk hits (easyCampaignScript calcDir planArgs)
      = List.foldl (runStmt allOk hits)
          { nullglob := true, errexit := true,
            events := prologueEvents calcDir planArgs, status := 0, halted := false }
          [Stmt.forLoop transformationsGlob loopBody, .simple (.cd ".."),
           .simple (.comment "Analysis: FUTURE"),
           .simple (.comment "openfe gather_result_jsons -result_json_dir c_results -out_csv dG.csv")] := rfl
  rw [h1, List.foldl_cons]
  have h2 : runStmt allOk hits
      { nullglob := true, errexit := true,
        events := prologueEvents calcDir planArgs, status := 0, halted := false }
      (Stmt.forLoop transformationsGlob loopBody)
      = { nullglob := true, errexit := true,
          events := prologueEvents calcDir planArgs ++ hits.flatMap loopEvents,
          status := 0, halted := false } := by
    show ((expandGlob true transformationsGlob hits).flatMap loopBody).foldl
        (step allOk)
        { nullglob := true, errexit := true,
          events := prologueEvents calcDir planArgs, status := 0, halted := false }
      = { nullglob := true, errexit := true,
          events := prologueEvents calcDir planArgs ++ hits.flatMap loopEvents,
          status := 0, halted := false }
    have hg : expandGlob true transformationsGlob hits = hits := by
      simp [expandGlob]
    rw [hg, loop_foldl_ok allOk hits _ rfl rfl (fun t _ => loopBody_allOk t)]
  rw [h2]
  simp [runStmt, step, exitCodeOf, allOk, ShellCmd.setFlags, ShellCmd.effects,
    List.append_assoc]

/-! ## Trace extraction lemmas -/

theorem filterMap_sbatch_loopEvents (ts : List String) :
    (ts.flatMap loopEvents).filterMap Event.sbatchTarget = ts.map jobScriptName := by
  induction ts with
  | nil => rfl
  | cons t ts ih => simp [loopEvents, Event.sbatchTarget, ih]

theorem filter_fileWrite_loopEvents (ts : List String) :
    (ts.flatMap loopEvents).filter Event.isFileWrite
      = ts.flatMap fun t =>
          [Event.createdFile (jobScriptName t) ["#!/usr/bin/env bash", ""],
           Event.appendedFile (jobScriptName t) [quickrunCmd t, ""]] := by
  induction ts with
  | nil => rfl
  | cons t ts ih => simp [loopEvents, Event.isFileWrite, ih]

theorem filterMap_openfe_loopEvents (ts : List String) :
    (ts.flatMap loopEvents).filterMap Event.openfeArgs = [] := by
  induction ts with
  | nil => rfl
  | cons t ts ih => simp [loopEvents, Event.openfeArgs, ih]

/-- The quickrun command line is a command line of the job script: it is
nonempty and, starting with `openfe …`, is not a comment. -/
theorem isCommandLine_quickrunCmd (t : String) :
    isCommandLine (quickrunCmd t) = true := by
  simp only [isCommandLine, quickrunCmd, String.data_append]
  rfl

/-- The job script consists of the shebang line followed (after a blank
line) by the single quickrun command. -/
theorem commandLinesOf_jobScriptLines (t : String) :
    commandLinesOf (jobScriptLines t) = [quickrunCmd t] := by
  simp [commandLinesOf, jobScriptLines, List.filter, isCommandLine_quickrunCmd,
    show isCommandLine "" = false from rfl,
    show isCommandLine "#!/usr/bin/env bash" = false from rfl]

theorem submissionsOf_easyCampaign (calcDir : String) (planArgs : List String)
    (hits : List String) :
    submissionsOf (runScript allOk hits (easyCampaignScript calcDir planArgs))
      = hits.map jobScriptName := by
  rw [submissionsOf, runScript_easyCampaign_allOk]
  simp [prologueEvents, Event.sbatchTarget, filterMap_sbatch_loopEvents]

theorem fileWritesOf_easyCampaign (calcDir : String) (planArgs : List String)
    (hits : List String) :
    fileWritesOf (runScript allOk hits (easyCampaignScript calcDir planArgs))
      = hits.flatMap fun t =>
          [Event.createdFile (jobScriptName t) ["#!/usr/bin/env bash", ""],
           Event.appendedFile (jobScriptName t) [quickrunCmd t, ""]] := by
  rw [fileWritesOf, runScript_easyCampaign_allOk]
  simp [prologueEvents, Event.isFileWrite, filter_fileWrite_loopEvents]

theorem openfeCallsOf_easyCampaign (calcDir : String) (planArgs : List String)
    (hits : List String) :
    openfeCallsOf (runScript allOk hits (easyCampaignScript calcDir planArgs))
      = [planArgs] := by
  rw [openfeCallsOf, runScript_easyCampaign_allOk]
  simp [prologueEvents, Event.openfeArgs, filterMap_openfe_loopEvents]

/-! ## Claims about the campaign scripts -/

/-- C1: For every file matched by the glob
`../a_alchemicalNetwork/transformations/*/a_alchemicalNetwork*.json`, each
campaign shell script (the RBFE and the RHFE variant) performs exactly one
per-file action pair: it writes exactly one job script named
`job_<basename-without-.json>.sh` whose content is a bash shebang line
followed by the single command
`openfe quickrun <file> -d ./ -o ../c_results/result_<basename>.json`, and
it makes exactly one sbatch submission of that job script; no other
per-file filesystem or scheduler work is done, so the number of sbatch
invocations equals the number of matched transformation JSON files.  The
hypothesis that matched paths contain no newline keeps the line-based
model of the `echo -e` redirections exact. -/
theorem claim_C1 (hits : List String)
    (hclean : ∀ t ∈ hits, t.data.contains '\n' = false) :
    (submissionsOf (runScript allOk hits rhfeScript) = hits.map jobScriptName
      ∧ submissionsOf (runScript allOk hits rbfeScript) = hits.map jobScriptName)
    ∧ (fileWritesOf (runScript allOk hits rhfeScript)
        = (hits.flatMap fun t =>
            [Event.createdFile (jobScriptName t) ["#!/usr/bin/env bash", ""],
             Event.appendedFile (jobScriptName t) [quickrunCmd t, ""]])
      ∧ fileWritesOf (runScript allOk hits rbfeScript)
        = (hits.flatMap fun t =>
            [Event.createdFile (jobScriptName t) ["#!/usr/bin/env bash", ""],
             Event.appendedFile (jobScriptName t) [quickrunCmd t, ""]]))
    ∧ (∀ t ∈ hits,
        jobScriptName t = "job_" ++ basename (stripSuffix t ".json") ++ ".sh"
        ∧ ["#!/usr/bin/env bash", ""] ++ [quickrunCmd t, ""] = jobScriptLines t
        ∧ (jobScriptLines t).head? = some "#!/usr/bin/env bash"
        ∧ commandLinesOf (jobScriptLines t) = [quickrunCmd t]
        ∧ quickrunCmd t
            = "openfe quickrun " ++ t ++ " -d ./ -o ../c_results/result_"
              ++ basename (stripSuffix t ".json") ++ ".json")
    ∧ (submissionsOf (runScript allOk hits rhfeScript)).length = hits.length
    ∧ (submissionsOf (runScript allOk hits rbfeScript)).length = hits.length := by
  refine ⟨⟨?_, ?_⟩, ⟨?_, ?_⟩, ?_, ?_, ?_⟩
  · exact submissionsOf_easyCampaign _ _ hits
  · exact submissionsOf_easyCampaign _ _ hits
  · exact fileWritesOf_easyCampaign _ _ hits
  · exact fileWritesOf_easyCampaign _ _ hits
  · intro t ht
    exact ⟨rfl, rfl, rfl, commandLinesOf_jobScriptLines t, rfl⟩
  · rw [show rhfeScript = easyCampaignScript "rhfe_calculation" planRhfeArgs from rfl,
      submissionsOf_easyCampaign _ _ hits, List.length_map]
  · rw [show rbfeScript = easyCampaignScript "rbfe_calculation" planRbfeArgs from rfl,
      submissionsOf_easyCampaign _ _ hits, List.length_map]

/-- Witness for C1 at the concrete one-file match list `demoHits`. -/
theorem claim_C1_witness :
    (∀ t ∈ demoHits, t.data.contains '\n' = false)
    ∧ ((submissionsOf (runScript allOk demoHits rhfeScript)
          = demoHits.map jobScriptName
        ∧ submissionsOf (runScript allOk demoHits rbfeScript)
          = demoHits.map jobScriptName)
      ∧ (fileWritesOf (runScript allOk demoHits rhfeScript)
          = (demoHits.flatMap fun t =>
              [Event.createdFile (jobScriptName t) ["#!/usr/bin/env bash", ""],
               Event.appendedFile (jobScriptName t) [quickrunCmd t, ""]])
        ∧ fileWritesOf (runScript allOk demoHits rbfeScript)
          = (demoHits.flatMap fun t =>
              [Event.createdFile (jobScriptName t) ["#!/usr/bin/env bash", ""],
               Event.appendedFile (jobScriptName t) [quickrunCmd t, ""]]))
      ∧ (∀ t ∈ demoHits,
          jobScriptName t = "job_" ++ basename (stripSuffix t ".json") ++ ".sh"
          ∧ ["#!/usr/bin/env bash", ""] ++ [quickrunCmd t, ""] = jobScriptLines t
          ∧ (jobScriptLines t).head? = some "#!/usr/bin/env bash"
          ∧ commandLinesOf (jobScriptLines t) = [quickrunCmd t]
          ∧ quickrunCmd t
              = "openfe quickrun " ++ t ++ " -d ./ -o ../c_results/result_"
                ++ basename (stripSuffix t ".json") ++ ".json")
      ∧ (submissionsOf (runScript allOk demoHits rhfeScript)).length
          = demoHits.length
      ∧ (submissionsOf (runScript allOk demoHits rbfeScript)).length
          = demoHits.length) :=
  ⟨by decide, claim_C1 demoHits (by decide)⟩

/-- C2 counterexample: a complete successful run of either campaign script
executes exactly one `openfe` CLI command — the planning command — and in
particular never executes an `openfe gather` step, refuting the claim that
every complete run executes a gather step. -/
theorem claim_C2_counterexample :
    openfeCallsOf (runScript allOk demoHits rhfeScript) = [planRhfeArgs]
    ∧ openfeCallsOf (runScript allOk demoHits rbfeScript) = [planRbfeArgs]
    ∧ (¬ ∃ args ∈ openfeCallsOf (runScript allOk demoHits rhfeScript),
        args.head? = some "gather")
    ∧ (¬ ∃ args ∈ openfeCallsOf (runScript allOk demoHits rbfeScript),
        args.head? = some "gather") := by
  refine ⟨openfeCallsOf_easyCampaign _ _ demoHits,
          openfeCallsOf_easyCampaign _ _ demoHits, ?_, ?_⟩
  · rw [show rhfeScript = easyCampaignScript "rhfe_calculation" planRhfeArgs from rfl,
      openfeCallsOf_easyCampaign _ _ demoHits]
    decide
  · rw [show rbfeScript = easyCampaignScript "rbfe_calculation" planRbfeArgs from rfl,
      openfeCallsOf_easyCampaign _ _ demoHits]
    decide

/-- C2, amended: each campaign script executes exactly one `openfe` CLI
command directly — the planning command (`plan-rhfe-network` respectively
`plan-rbfe-network`) — and submits one quickrun job script per matched
transformation file via sbatch; no `openfe gather` step is executed in any
complete run: result gathering appears only in a commented-out FUTURE line
(which moreover names `gather_result_jsons`, not `gather`). -/
theorem claim_C2 (hits : List String) :
    openfeCallsOf (runScript allOk hits rhfeScript) = [planRhfeArgs]
    ∧ openfeCallsOf (runScript allOk hits rbfeScript) = [planRbfeArgs]
    ∧ planRhfeArgs.head? = some "plan-rhfe-network"
    ∧ planRbfeArgs.head? = some "plan-rbfe-network"
    ∧ submissionsOf (runScript allOk hits rhfeScript) = hits.map jobScriptName
    ∧ submissionsOf (runScript allOk hits rbfeScript) = hits.map jobScriptName
    ∧ "openfe gather_result_jsons -result_json_dir c_results -out_csv dG.csv"
        ∈ commentsOf rhfeScript
    ∧ "openfe gather_result_jsons -result_json_dir c_results -out_csv dG.csv"
        ∈ commentsOf rbfeScript
    ∧ ((openfeCallsOf (runScript allOk hits rhfeScript)).all
        fun args => args.head? != some "gather") = true
    ∧ ((openfeCallsOf (runScript allOk hits rbfeScript)).all
        fun args => args.head? != some "gather") = true := by
  refine ⟨openfeCallsOf_easyCampaign _ _ hits, openfeCallsOf_easyCampaign _ _ hits,
    rfl, rfl, submissionsOf_easyCampaign _ _ hits, submissionsOf_easyCampaign _ _ hits,
    by decide, by decide, ?_, ?_⟩
  · rw [show rhfeScript = easyCampaignScript "rhfe_calculation" planRhfeArgs from rfl,
      openfeCallsOf_easyCampaign _ _ hits]
    decide
  · rw [show rbfeScript = easyCampaignScript "rbfe_calculation" planRbfeArgs from rfl,
      openfeCallsOf_easyCampaign _ _ hits]
    decide

/-- C10: because both campaign scripts enable `shopt -s nullglob` before
the submission loop, a run in which the transformations glob matches no
file executes the loop body zero times: no job script is written, no
sbatch call is made, and the script reaches its end successfully (not
halted, exit status 0) instead of iterating once over the literal
unexpanded glob pattern (which is what the glob expands to without
nullglob). -/
theorem claim_C10 :
    runScript allOk [] rhfeScript
      = { nullglob := true, errexit := true,
          events := prologueEvents "rhfe_calculation" planRhfeArgs
                    ++ [.changedDir ".."],
          status := 0, halted := false }
    ∧ runScript allOk [] rbfeScript
      = { nullglob := true, errexit := true,
          events := prologueEvents "rbfe_calculation" planRbfeArgs
                    ++ [.changedDir ".."],
          status := 0, halted := false }
    ∧ submissionsOf (runScript allOk [] rhfeScript) = []
    ∧ submissionsOf (runScript allOk [] rbfeScript) = []
    ∧ fileWritesOf (runScript allOk [] rhfeScript) = []
    ∧ fileWritesOf (runScript allOk [] rbfeScript) = []
    ∧ (runScript allOk [] rhfeScript).halted = false
    ∧ (runScript allOk [] rbfeScript).halted = false
    ∧ (runScript allOk [] rhfeScript).status = 0
    ∧ (runScript allOk [] rbfeScript).status = 0
    ∧ expandGlob true transformationsGlob [] = []
    ∧ expandGlob false transformationsGlob [] = [transformationsGlob] := by
  refine ⟨?_, ?_, ?_, ?_, ?_, ?_, ?_, ?_, ?_, ?_, rfl, rfl⟩
  · simpa using runScript_easyCampaign_allOk "rhfe_calculation" planRhfeArgs []
  · simpa using runScript_easyCampaign_allOk "rbfe_calculation" planRbfeArgs []
  · simpa using submissionsOf_easyCampaign "rhfe_calculation" planRhfeArgs []
  · simpa using submissionsOf_easyCampaign "rbfe_calculation" planRbfeArgs []
  · simpa using fileWritesOf_easyCampaign "rhfe_calculation" planRhfeArgs []
  · simpa using fileWritesOf_easyCampaign "rbfe_calculation" planRbfeArgs []
  · rw [show rhfeScript = easyCampaignScript "rhfe_calculation" planRhfeArgs from rfl,
      runScript_easyCampaign_allOk "rhfe_calculation" planRhfeArgs []]
  · rw [show rbfeScript = easyCampaignScript "rbfe_calculation" planRbfeArgs from rfl,
      runScript_easyCampaign_allOk "rbfe_calculation" planRbfeArgs []]
  · rw [show rhfeScript = easyCampaignScript "rhfe_calculation" planRhfeArgs from rfl,
      runScript_easyCampaign_allOk "rhfe_calculation" planRhfeArgs []]
  · rw [show rbfeScript = easyCampaignScript "rbfe_calculation" planRbfeArgs from rfl,
      runScript_easyCampaign_allOk "rbfe_calculation" planRbfeArgs []]

/-! ## Claims about the CI workflow, the documents and the file inventory -/

/-- C3: the test step of the repository's CI job is a single pytest
invocation over the notebook directories with the `--nbval-lax` flag, and
no other step of the job runs a test command; the environment is the
externally installed one from `.binder/environment.yml` set up by
micromamba. -/
theorem claim_C3 :
    ((ciTestJobSteps.flatMap WorkflowStep.runLines).filter isTestInvocation
      = [ciPytestLine])
    ∧ "pytest" ∈ tokensOf ciPytestLine
    ∧ "--nbval-lax" ∈ tokensOf ciPytestLine
    ∧ (["setup/", "showcase/", "cookbook/", "openmm_rbfe/", "networks/"].all
        fun d => (tokensOf ciPytestLine).contains d) = true
    ∧ ((ciTestJobSteps.filter fun s => s.runLines.any isTestInvocation).map
        WorkflowStep.stepName = [some "Run example notebooks"])
    ∧ (ciTestJobSteps.any fun s =>
        s.usesAction == some "mamba-org/setup-micromamba@v1"
        && s.withArgs.contains ("environment-file", ".binder/environment.yml"))
      = true :=
  ⟨by decide, by decide, by decide, by decide, by decide, by decide⟩

/-- C4: no function or class implementing a computational heavy-lifting
step is defined anywhere in this source tree, and every occurrence of such
a step in the notebooks, tutorials and scripts invokes an external library
or the external `openfe` CLI; all five heavy-lifting steps the spec lists
occur and each occurrence has an external provider. -/
theorem claim_C4 :
    pythonDefinedCallables = []
    ∧ (heavyStepUses.all fun u =>
        externalProviders.contains u.provider
        && !(pythonDefinedCallables.contains u.callee)) = true
    ∧ ([HeavyStep.atomMapping, .networkPlanning, .molecularDynamics,
        .chargeGeneration, .freeEnergyEstimation].all fun s =>
        heavyStepUses.any fun u => u.step == s) = true :=
  ⟨rfl, by decide, by decide⟩

/-- C6: each of the seven CLI commands the spec lists appears as a
documented usage example in at least one document of this repository. -/
theorem claim_C6 :
    (specListedCliCommands.all fun cmd =>
      repositoryDocs.any fun d => d.cliUsageExamples.contains cmd) = true := by
  decide

/-- C7 counterexample: the GitHub Actions workflow `.github/workflows/CI.yml`
belongs to the repository and is a YAML configuration file, which is none
of the three claimed kinds (Markdown, notebook, shell script). -/
theorem claim_C7_counterexample :
    ".github/workflows/CI.yml" ∈ namedRepoFiles
    ∧ kindOfPath ".github/workflows/CI.yml" = FileKind.yamlConfig
    ∧ FileKind.yamlConfig ∉ claimedKinds
    ∧ ¬ (∀ p ∈ namedRepoFiles, kindOfPath p ∈ claimedKinds) := by
  refine ⟨by decide, by decide, by decide, by decide⟩

/-- C7, amended: every file of the repository is a Markdown document, a
Jupyter notebook or a shell script, with the single exception of the
GitHub Actions workflow `.github/workflows/CI.yml`, which is a YAML
configuration file. -/
theorem claim_C7 :
    (namedRepoFiles.all fun p =>
      claimedKinds.contains (kindOfPath p)
      || p == ".github/workflows/CI.yml") = true
    ∧ (unnamedRepoFiles.all fun pk => claimedKinds.contains pk.2) = true
    ∧ kindOfPath ".github/workflows/CI.yml" = FileKind.yamlConfig :=
  ⟨by decide, by decide, by decide⟩

/-! ## The alchemical network refinement claim -/

/-- C8: the alchemical network built manually — for every edge of the
ligand network and for each of the two legs `solvent` (common component:
the solvent) and `complex` (common components: the solvent and the
protein), chemical systems for the edge's `componentA` and `componentB`
and a transformation between them with that mapping and protocol — equals
the network returned by
`LigandNetwork.to_rbfe_alchemical_network(solvent=…, protein=…,
protocol=…)`. -/
theorem claim_C8 (ln : LigandNetwork) (protocol : Protocol)
    (solvent : SolventComponent) (protein : ProteinComponent) :
    manualAlchemicalNetwork ln protocol solvent protein
      = to_rbfe_alchemical_network ln solvent protein protocol := by
  have hperm : List.Perm (manualTransformations ln protocol solvent protein)
      ((ln.edges.map fun m =>
            legTransformation m protocol "solvent"
              [("solvent", .solvent solvent)])
         ++ (ln.edges.map fun m =>
            legTransformation m protocol "complex"
              [("solvent", .solvent solvent), ("protein", .protein protein)])) := by
    unfold manualTransformations rbfeLegs
    refine List.Perm.symm ?_
    have h := List.flatMap_append_perm ln.edges
      (fun m => [legTransformation m protocol "solvent"
        [("solvent", .solvent solvent)]])
      (fun m => [legTransformation m protocol "complex"
        [("solvent", .solvent solvent), ("protein", .protein protein)]])
    simpa [← List.map_eq_flatMap] using h
  unfold manualAlchemicalNetwork to_rbfe_alchemical_network
    AlchemicalNetwork.ofTransformations
  congr 1
  · exact List.toFinset_eq_of_perm _ _ hperm
  · exact List.toFinset_eq_of_perm _ _ (hperm.flatMap_right _)

/-! ## Failure semantics of the campaign scripts (`set -euxo pipefail`) -/

theorem runStmt_halted (oracle : ShellCmd → Nat) (hits : List String)
    (st : ShellState) (s : Stmt) (h : st.halted = true) :
    runStmt oracle hits st s = st := by
  cases s with
  | simple c => exact step_halted oracle st c h
  | forLoop pat body => exact foldl_step_halted oracle _ st h

theorem foldl_runStmt_halted (oracle : ShellCmd → Nat) (hits : List String)
    (stmts : List Stmt) (st : ShellState) (h : st.halted = true) :
    stmts.foldl (runStmt oracle hits) st = st := by
  induction stmts with
  | nil => rfl
  | cons s ss ih => rw [List.foldl_cons, runStmt_halted oracle hits st s h, ih]

/-- If the planning command fails, the campaign script halts right after
the two preparatory steps with the failing command's status: nothing is
planned, no job script is created and nothing is submitted. -/
theorem easyCampaign_planFails (calcDir : String) (planArgs : List String)
    (hits : List String) (code : Nat) (hcode : code ≠ 0) :
    runScript (failingOn (.openfe planArgs) code) hits
        (easyCampaignScript calcDir planArgs)
      = { nullglob := true, errexit := true,
          events := [.madeDir [calcDir], .changedDir calcDir],
          status := code, halted := true } := by
  have h1 : List.foldl (runStmt (failingOn (.openfe planArgs) code) hits)
      { nullglob := false, errexit := false, events := [], status := 0,
        halted := false }
      (easyCampaignScript calcDir planArgs)
      = List.foldl (runStmt (failingOn (.openfe planArgs) code) hits)
        (step (failingOn (.openfe planArgs) code)
          { nullglob := true, errexit := true,
            events := [.madeDir [calcDir], .changedDir calcDir], status := 0,
            halted := false }
          (.openfe planArgs))
        [ .simple (.mkdirP ["b_simulation", "c_results"]),
          .simple (.cdOrExit "b_simulation"),
          .forLoop transformationsGlob loopBody,
          .simple (.cd ".."),
          .simple (.comment "Analysis: FUTURE"),
          .simple (.comment "openfe gather_result_jsons -result_json_dir c_results -out_csv dG.csv") ] := rfl
  have h2 : step (failingOn (.openfe planArgs) code)
      { nullglob := true, errexit := true,
        events := [.madeDir [calcDir], .changedDir calcDir], status := 0,
        halted := false }
      (.openfe planArgs)
      = { nullglob := true, errexit := true,
          events := [.madeDir [calcDir], .changedDir calcDir],
          status := code, halted := true } := by
    simp [step, exitCodeOf, failingOn, hcode]
  rw [runScript, h1, h2, foldl_runStmt_halted _ _ _ _ rfl]

/-- Every command of the loop body for a file whose job script name
differs from the failing one succeeds under the failing-sbatch oracle. -/
theorem loopBody_ok_of_ne (f t : String) (code : Nat)
    (hne : jobScriptName t ≠ jobScriptName f) :
    ∀ c ∈ loopBody t, exitCodeOf (failingOn (.sbatch (jobScriptName f)) code) c = 0 := by
  intro c hc
  simp only [loopBody, List.mem_cons, List.not_mem_nil, or_false] at hc
  rcases hc with rfl | rfl | rfl | rfl | rfl
  · rfl
  · rfl
  · simp [exitCodeOf, failingOn]
  · simp [exitCodeOf, failingOn]
  · simp [exitCodeOf, failingOn, hne]

/-- If the sbatch submission for the transformation file `f` fails (and the
job scripts of the files before it have different names, so their
submissions succeed), the campaign script halts at that submission with
the failing status: the files before `f` are fully processed and stay
submitted, `f`'s job script is created but not submitted, and nothing at
all is done for the files after `f`. -/
theorem easyCampaign_sbatchFails (calcDir : String) (planArgs : List String)
    (pre post : List String) (f : String) (code : Nat) (hcode : code ≠ 0)
    (hpre : ∀ t ∈ pre, jobScriptName t ≠ jobScriptName f) :
    runScript (failingOn (.sbatch (jobScriptName f)) code) (pre ++ f :: post)
        (easyCampaignScript calcDir planArgs)
      = { nullglob := true, errexit := true,
          events := prologueEvents calcDir planArgs ++ pre.flatMap loopEvents
            ++ [ .printed (jobFilename f), .printed (quickrunCmd f ++ "\n"),
                 .createdFile (jobScriptName f) ["#!/usr/bin/env bash", ""],
                 .appendedFile (jobScriptName f) [quickrunCmd f, ""] ],
          status := code, halted := true } := by
  set oracle := failingOn (.sbatch (jobScriptName f)) code with horacle
  have h1 : runScript oracle (pre ++ f :: post) (easyCampaignScript calcDir planArgs)
      = List.foldl (runStmt oracle (pre ++ f :: post))
        (runStmt oracle (pre ++ f :: post)
          { nullglob := true, errexit := true,
            events := prologueEvents calcDir planArgs, status := 0, halted := false }
          (.forLoop transformationsGlob loopBody))
        [ .simple (.cd ".."),
          .simple (.comment "Analysis: FUTURE"),
          .simple (.comment "openfe gather_result_jsons -result_json_dir c_results -out_csv dG.csv") ] := rfl
  have hglob : expandGlob true transformationsGlob (pre ++ f :: post)
      = pre ++ f :: post := by
    simp [expandGlob]
  have h2 : runStmt oracle (pre ++ f :: post)
      { nullglob := true, errexit := true,
        events := prologueEvents calcDir planArgs, status := 0, halted := false }
      (.forLoop transformationsGlob loopBody)
      = { nullglob := true, errexit := true,
          events := prologueEvents calcDir planArgs ++ pre.flatMap loopEvents
            ++ [ .printed (jobFilename f), .printed (quickrunCmd f ++ "\n"),
                 .createdFile (jobScriptName f) ["#!/usr/bin/env bash", ""],
                 .appendedFile (jobScriptName f) [quickrunCmd f, ""] ],
          status := code, halted := true } := by
    show ((expandGlob true transformationsGlob (pre ++ f :: post)).flatMap
        loopBody).foldl (step oracle)
        { nullglob := true, errexit := true,
          events := prologueEvents calcDir planArgs, status := 0, halted := false }
      = _
    rw [hglob, List.flatMap_append, List.foldl_append,
      loop_foldl_ok oracle pre _ rfl rfl
        (fun t ht => loopBody_ok_of_ne f t code (hpre t ht)),
      List.flatMap_cons, List.foldl_append]
    have hbody : (loopBody f).foldl (step oracle)
        { nullglob := true, errexit := true,
          events := (prologueEvents calcDir planArgs) ++ pre.flatMap loopEvents,
          status := 0, halted := false }
        = { nullglob := true, errexit := true,
            events := prologueEvents calcDir planArgs ++ pre.flatMap loopEvents
              ++ [ .printed (jobFilename f), .printed (quickrunCmd f ++ "\n"),
                   .createdFile (jobScriptName f) ["#!/usr/bin/env bash", ""],
                   .appendedFile (jobScriptName f) [quickrunCmd f, ""] ],
            status := code, halted := true } := by
      simp only [loopBody, List.foldl_cons, List.foldl_nil]
      simp [step, exitCodeOf, horacle, failingOn, hcode, ShellCmd.setFlags,
        ShellCmd.effects, List.append_assoc]
    rw [hbody, foldl_step_halted _ _ _ rfl]
  rw [h1, h2, foldl_runStmt_halted _ _ _ _ rfl]

/-- C9: both campaign scripts run under `set -euxo pipefail` (their second
statement), so a failing command terminates the script immediately with
the failing command's nonzero status.  If the network-planning command
fails, nothing is written or submitted.  If the sbatch submission of a
mid-loop file `f` fails, the script stops there: the files before `f`
remain submitted (their job scripts stay written and submitted), `f`'s job
script was created but not submitted, and no job script is created or
submitted for the files after `f` — the loop is not atomic and a mid-loop
failure leaves a partially submitted campaign. -/
theorem claim_C9 (pre post : List String) (f : String) (code : Nat)
    (hcode : code ≠ 0)
    (hpre : ∀ t ∈ pre, jobScriptName t ≠ jobScriptName f) :
    (rhfeScript[1]? = some (.simple .setEuxoPipefail)
      ∧ rbfeScript[1]? = some (.simple .setEuxoPipefail))
    ∧ runScript (failingOn (.openfe planRhfeArgs) code) (pre ++ f :: post)
        rhfeScript
        = { nullglob := true, errexit := true,
            events := [.madeDir ["rhfe_calculation"],
                       .changedDir "rhfe_calculation"],
            status := code, halted := true }
    ∧ runScript (failingOn (.openfe planRbfeArgs) code) (pre ++ f :: post)
        rbfeScript
        = { nullglob := true, errexit := true,
            events := [.madeDir ["rbfe_calculation"],
                       .changedDir "rbfe_calculation"],
            status := code, halted := true }
    ∧ runScript (failingOn (.sbatch (jobScriptName f)) code) (pre ++ f :: post)
        rhfeScript
        = { nullglob := true, errexit := true,
            events := prologueEvents "rhfe_calculation" planRhfeArgs
              ++ pre.flatMap loopEvents
              ++ [ .printed (jobFilename f), .printed (quickrunCmd f ++ "\n"),
                   .createdFile (jobScriptName f) ["#!/usr/bin/env bash", ""],
                   .appendedFile (jobScriptName f) [quickrunCmd f, ""] ],
            status := code, halted := true }
    ∧ runScript (failingOn (.sbatch (jobScriptName f)) code) (pre ++ f :: post)
        rbfeScript
        = { nullglob := true, errexit := true,
            events := prologueEvents "rbfe_calculation" planRbfeArgs
              ++ pre.flatMap loopEvents
              ++ [ .printed (jobFilename f), .printed (quickrunCmd f ++ "\n"),
                   .createdFile (jobScriptName f) ["#!/usr/bin/env bash", ""],
                   .appendedFile (jobScriptName f) [quickrunCmd f, ""] ],
            status := code, halted := true }
    ∧ submissionsOf (runScript (failingOn (.sbatch (jobScriptName f)) code)
        (pre ++ f :: post) rhfeScript) = pre.map jobScriptName
    ∧ submissionsOf (runScript (failingOn (.sbatch (jobScriptName f)) code)
        (pre ++ f :: post) rbfeScript) = pre.map jobScriptName
    ∧ fileWritesOf (runScript (failingOn (.sbatch (jobScriptName f)) code)
        (pre ++ f :: post) rhfeScript)
        = (pre.flatMap fun t =>
            [Event.createdFile (jobScriptName t) ["#!/usr/bin/env bash", ""],
             Event.appendedFile (jobScriptName t) [quickrunCmd t, ""]])
          ++ [Event.createdFile (jobScriptName f) ["#!/usr/bin/env bash", ""],
              Event.appendedFile (jobScriptName f) [quickrunCmd f, ""]]
    ∧ (runScript (failingOn (.sbatch (jobScriptName f)) code) (pre ++ f :: post)
        rhfeScript).status ≠ 0
    ∧ (runScript (failingOn (.sbatch (jobScriptName f)) code) (pre ++ f :: post)
        rhfeScript).halted = true := by
  have hR := easyCampaign_sbatchFails "rhfe_calculation" planRhfeArgs pre post f
    code hcode hpre
  have hB := easyCampaign_sbatchFails "rbfe_calculation" planRbfeArgs pre post f
    code hcode hpre
  refine ⟨⟨rfl, rfl⟩,
    easyCampaign_planFails "rhfe_calculation" planRhfeArgs _ code hcode,
    easyCampaign_planFails "rbfe_calculation" planRbfeArgs _ code hcode,
    hR, hB, ?_, ?_, ?_, ?_, ?_⟩
  · rw [show rhfeScript = easyCampaignScript "rhfe_calculation" planRhfeArgs
      from rfl, submissionsOf, hR]
    simp [prologueEvents, Event.sbatchTarget, List.filterMap_append,
      filterMap_sbatch_loopEvents]
  · rw [show rbfeScript = easyCampaignScript "rbfe_calculation" planRbfeArgs
      from rfl, submissionsOf, hB]
    simp [prologueEvents, Event.sbatchTarget, List.filterMap_append,
      filterMap_sbatch_loopEvents]
  · rw [show rhfeScript = easyCampaignScript "rhfe_calculation" planRhfeArgs
      from rfl, fileWritesOf, hR]
    simp [prologueEvents, Event.isFileWrite, List.filter_append,
      filter_fileWrite_loopEvents]
  · rw [show rhfeScript = easyCampaignScript "rhfe_calculation" planRhfeArgs
      from rfl, hR]
    exact hcode
  · rw [show rhfeScript = easyCampaignScript "rhfe_calculation" planRhfeArgs
      from rfl, hR]

/-- Witness for C9: one file before the failing one, one after, exit code 1. -/
theorem claim_C9_witness :
    ((1 : Nat) ≠ 0
      ∧ (∀ t ∈ demoPre, jobScriptName t ≠ jobScriptName demoFail))
    ∧ ((rhfeScript[1]? = some (.simple .setEuxoPipefail)
        ∧ rbfeScript[1]? = some (.simple .setEuxoPipefail))
      ∧ runScript (failingOn (.openfe planRhfeArgs) 1)
          (demoPre ++ demoFail :: demoPost) rhfeScript
          = { nullglob := true, errexit := true,
              events := [.madeDir ["rhfe_calculation"],
                         .changedDir "rhfe_calculation"],
              status := 1, halted := true }
      ∧ runScript (failingOn (.openfe planRbfeArgs) 1)
          (demoPre ++ demoFail :: demoPost) rbfeScript
          = { nullglob := true, errexit := true,
              events := [.madeDir ["rbfe_calculation"],
                         .changedDir "rbfe_calculation"],
              status := 1, halted := true }
      ∧ runScript (failingOn (.sbatch (jobScriptName demoFail)) 1)
          (demoPre ++ demoFail :: demoPost) rhfeScript
          = { nullglob := true, errexit := true,
              events := prologueEvents "rhfe_calculation" planRhfeArgs
                ++ demoPre.flatMap loopEvents
                ++ [ .printed (jobFilename demoFail),
                     .printed (quickrunCmd demoFail ++ "\n"),
                     .createdFile (jobScriptName demoFail)
                       ["#!/usr/bin/env bash", ""],
                     .appendedFile (jobScriptName demoFail)
                       [quickrunCmd demoFail, ""] ],
              status := 1, halted := true }
      ∧ runScript (failingOn (.sbatch (jobScriptName demoFail)) 1)
          (demoPre ++ demoFail :: demoPost) rbfeScript
          = { nullglob := true, errexit := true,
              events := prologueEvents "rbfe_calculation" planRbfeArgs
                ++ demoPre.flatMap loopEvents
                ++ [ .printed (jobFilename demoFail),
                     .printed (quickrunCmd demoFail ++ "\n"),
                     .createdFile (jobScriptName demoFail)
                       ["#!/usr/bin/env bash", ""],
                     .appendedFile (jobScriptName demoFail)
                       [quickrunCmd demoFail, ""] ],
              status := 1, halted := true }
      ∧ submissionsOf (runScript (failingOn (.sbatch (jobScriptName demoFail)) 1)
          (demoPre ++ demoFail :: demoPost) rhfeScript)
          = demoPre.map jobScriptName
      ∧ submissionsOf (runScript (failingOn (.sbatch (jobScriptName demoFail)) 1)
          (demoPre ++ demoFail :: demoPost) rbfeScript)
          = demoPre.map jobScriptName
      ∧ fileWritesOf (runScript (failingOn (.sbatch (jobScriptName demoFail)) 1)
          (demoPre ++ demoFail :: demoPost) rhfeScript)
          = (demoPre.flatMap fun t =>
              [Event.createdFile (jobScriptName t) ["#!/usr/bin/env bash", ""],
               Event.appendedFile (jobScriptName t) [quickrunCmd t, ""]])
            ++ [Event.createdFile (jobScriptName demoFail)
                  ["#!/usr/bin/env bash", ""],
                Event.appendedFile (jobScriptName demoFail)
                  [quickrunCmd demoFail, ""]]
      ∧ (runScript (failingOn (.sbatch (jobScriptName demoFail)) 1)
          (demoPre ++ demoFail :: demoPost) rhfeScript).status ≠ 0
      ∧ (runScript (failingOn (.sbatch (jobScriptName demoFail)) 1)
          (demoPre ++ demoFail :: demoPost) rhfeScript).halted = true) :=
  ⟨⟨by decide, by decide⟩,
   claim_C9 demoPre demoPost demoFail 1 (by decide) (by decide)⟩

end ExampleNotebooks
